import Mathlib

/-!
# Shallow embedding of the shinytimer time-accounting model

The repository contains three independent implementations of the same
timer model:

* `VarA` — the first implementation in `src/App.jsx` (integer-second
  timestamps `Math.floor(Date.now()/1000)`, a per-second interval that
  folds the running span into `elapsedSec`, and a revision-based
  `adjustTimer`);
* `VarB` — the second implementation in `src/App.jsx` (millisecond
  timestamps from `Date.now()`, fractional seconds obtained by dividing
  millisecond spans by 1000, single-focus `startTimer`);
* `VarC` — the implementation in `src/unnamed/part_000` (integer-second
  timestamps, a `nowSec` tick state, single-focus `startTimer`).

JavaScript numbers are modelled as `Int` for the integer-second variants
and as `ℚ` for `VarB`.  JS truthiness on `startTs` (`t.startTs || now`,
`t.startTs ? … : 0`) treats both `null` and `0` as absent and is embedded
as such.  Fields that carry no time-accounting content (name, category,
colour, `sort_index`, `deleted`) are not modelled; ids are plain `Nat`.
Every state update in the source is a `prev.map(t => body)`; each action
is embedded as its per-timer `body` function (suffix `T`) together with
the corresponding `List.map` wrapper.
-/

/-- Timer state shared by the two integer-second implementations
(`src/App.jsx` first variant and `src/unnamed/part_000`). -/
structure Timer where
  id : Nat
  targetSec : Int
  revisionSec : Int
  elapsedSec : Int
  startTs : Option Int
  running : Bool
  goalOn : Bool
  goalFired : Bool
  deriving Repr, DecidableEq

/-- Timer state of the second `src/App.jsx` implementation: `startTs` is a
millisecond `Date.now()` stamp and the second-valued fields are rationals
(the code divides millisecond spans by 1000 without flooring). -/
structure QTimer where
  id : Nat
  targetSec : ℚ
  revisionSec : ℚ
  elapsedSec : ℚ
  startTs : Option ℚ
  running : Bool
  goalOn : Bool
  goalFired : Bool
  deriving Repr, DecidableEq

/-- JS `t.startTs || now`: both `null` and the number `0` are falsy. -/
def startOr (o : Option Int) (now : Int) : Int :=
  match o with
  | some s => if s = 0 then now else s
  | none => now

/-- Net-seconds formula exactly as the spec states the invariant:
`max(0, elapsedSec + (running with non-null startTs ? now - startTs : 0)
- revisionSec)`.  Written from the spec's words, to be compared with the
values the three implementations compute. -/
def specNetInt (now : Int) (t : Timer) : Int :=
  max 0 (t.elapsedSec +
    (match t.startTs with
     | some s => if t.running = true then now - s else 0
     | none => 0) - t.revisionSec)

/-- The spec formula for the millisecond variant: the running extra in
seconds is the millisecond span divided by 1000. -/
def specNetRat (now : ℚ) (t : QTimer) : ℚ :=
  max 0 (t.elapsedSec +
    (match t.startTs with
     | some s => if t.running = true then (now - s) / 1000 else 0
     | none => 0) - t.revisionSec)

/-- Representation invariant: a timer is marked running exactly when it
carries a start timestamp. -/
def TimerWF (t : Timer) : Prop := t.running = true ↔ t.startTs.isSome = true

instance : DecidablePred TimerWF := fun t => by
  unfold TimerWF; infer_instance

/-- Representation invariant for the millisecond variant. -/
def QTimerWF (t : QTimer) : Prop := t.running = true ↔ t.startTs.isSome = true

instance : DecidablePred QTimerWF := fun t => by
  unfold QTimerWF; infer_instance

namespace VarA

/-- Body of the 1 s interval of the first `App.jsx` variant (lines
173‑189): skips timers that are not running or have no `startTs`,
otherwise folds `now - startTs` into `elapsedSec` (without touching
`startTs`), and fires the goal celebration once when
`goalOn && !goalFired && targetSec>0 && net >= targetSec` where
`net = max(0, elapsed - revisionSec)`.  The `Bool` records whether
`setCelebration` was called for this timer. -/
def tickT (now : Int) (t : Timer) : Timer × Bool :=
  match t.startTs with
  | none => (t, false)
  | some s =>
    if t.running = true then
      let elapsed := t.elapsedSec + (now - s)
      let net := max 0 (elapsed - t.revisionSec)
      if t.goalOn = true ∧ t.goalFired = false ∧ 0 < t.targetSec ∧ t.targetSec ≤ net then
        ({ t with goalFired := true, elapsedSec := elapsed }, true)
      else
        ({ t with elapsedSec := elapsed }, false)
    else (t, false)

/-- `startTimer` body (App.jsx line 193): only the addressed timer is
touched; if it is already running it is returned unchanged, otherwise it
gets `running = true` and `startTs = now`. -/
def startT (i : Nat) (now : Int) (t : Timer) : Timer :=
  if t.id = i then
    (if t.running = true then t else { t with running := true, startTs := some now })
  else t

/-- `pauseTimer` body (App.jsx lines 196‑201): for the addressed running
timer, adds `now - (t.startTs || now)` to `elapsedSec`, clears `startTs`
and `running`. -/
def pauseT (i : Nat) (now : Int) (t : Timer) : Timer :=
  if t.id = i ∧ t.running = true then
    { t with running := false, startTs := none,
             elapsedSec := t.elapsedSec + (now - startOr t.startTs now) }
  else t

/-- `resetTimer` body (App.jsx line 204). -/
def resetT (i : Nat) (t : Timer) : Timer :=
  if t.id = i then
    { t with running := false, startTs := none, elapsedSec := 0,
             revisionSec := 0, goalFired := false }
  else t

/-- `resetDay` body (App.jsx line 228). -/
def resetDayT (t : Timer) : Timer :=
  { t with running := false, startTs := none, elapsedSec := 0,
           revisionSec := 0, goalFired := false }

/-- `adjustTimer` body (App.jsx line 219): only `revisionSec` moves,
to `max(0, revisionSec - deltaSec)`, regardless of the running state. -/
def adjustT (i : Nat) (delta : Int) (t : Timer) : Timer :=
  if t.id = i then { t with revisionSec := max 0 (t.revisionSec - delta) } else t

/-- The fresh timer built by `addTimer` (App.jsx line 214). -/
def newTimer (i : Nat) : Timer :=
  { id := i, targetSec := 0, revisionSec := 0, elapsedSec := 0,
    startTs := none, running := false, goalOn := false, goalFired := false }

/-- Per-card `netSeconds` as rendered (App.jsx line 277):
`Math.max(0, (t.elapsedSec||0) - (t.revisionSec||0))` — no running extra. -/
def netDisplay (t : Timer) : Int := max 0 (t.elapsedSec - t.revisionSec)

/-- `totalTracked` (App.jsx line 256): the reduce over
`Math.max(0,(t.elapsedSec||0)-(t.revisionSec||0))`. -/
def totalTracked (ts : List Timer) : Int :=
  ts.foldl (fun a t => a + max 0 (t.elapsedSec - t.revisionSec)) 0

/-- Per-row net value of `exportCSV` (App.jsx line 232):
`Math.max(0, (t.elapsedSec||0) - (t.revisionSec||0))`. -/
def exportNets (ts : List Timer) : List Int :=
  ts.map fun t => max 0 (t.elapsedSec - t.revisionSec)

/-- List-level actions: every action in the source is `prev.map(body)`. -/
def tick (now : Int) (ts : List Timer) : List Timer :=
  ts.map fun t => (tickT now t).1

def startTimer (i : Nat) (now : Int) (ts : List Timer) : List Timer :=
  ts.map (startT i now)

def pauseTimer (i : Nat) (now : Int) (ts : List Timer) : List Timer :=
  ts.map (pauseT i now)

def adjustTimer (i : Nat) (delta : Int) (ts : List Timer) : List Timer :=
  ts.map (adjustT i delta)

def resetTimer (i : Nat) (ts : List Timer) : List Timer :=
  ts.map (resetT i)

def resetDay (ts : List Timer) : List Timer :=
  ts.map resetDayT

def addTimer (i : Nat) (ts : List Timer) : List Timer :=
  ts ++ [newTimer i]

end VarA

namespace VarC

/-- The running extra of `src/unnamed/part_000`:
`(t.running && t.startTs!=null) ? (nowSec - t.startTs) : 0`. -/
def runExtra (now : Int) (t : Timer) : Int :=
  match t.startTs with
  | some s => if t.running = true then now - s else 0
  | none => 0

/-- The net expression used by the goal check, `totals` and `exportCSV`
of `part_000`: `Math.max(0, (t.elapsedSec + runExtra) - (t.revisionSec||0))`. -/
def net (now : Int) (t : Timer) : Int :=
  max 0 (t.elapsedSec + runExtra now t - t.revisionSec)

/-- Goal-check body of the per-tick effect (part_000 lines 162‑173):
bails out when `!t.goalOn || t.goalFired || !t.targetSec` (JS falsiness:
`targetSec = 0`), otherwise fires and sets `goalFired` when
`net >= targetSec`. -/
def goalCheckT (now : Int) (t : Timer) : Timer × Bool :=
  if t.goalOn = false ∨ t.goalFired = true ∨ t.targetSec = 0 then (t, false)
  else if t.targetSec ≤ net now t then ({ t with goalFired := true }, true)
  else (t, false)

/-- `startTimer` body (part_000 lines 197‑211): the addressed timer starts
(if not already running); any *other* running timer is stopped with its
run materialized via `now - (t.startTs || now)`. -/
def startT (i : Nat) (now : Int) (t : Timer) : Timer :=
  if t.id = i then
    (if t.running = true then t else { t with running := true, startTs := some now })
  else if t.running = true then
    { t with running := false, startTs := none,
             elapsedSec := t.elapsedSec + (now - startOr t.startTs now) }
  else t

/-- `pauseTimer` body (part_000 lines 212‑219). -/
def pauseT (i : Nat) (now : Int) (t : Timer) : Timer :=
  if t.id = i ∧ t.running = true then
    { t with running := false, startTs := none,
             elapsedSec := t.elapsedSec + (now - startOr t.startTs now) }
  else t

/-- `resetTimer` body (part_000 line 221). -/
def resetT (i : Nat) (t : Timer) : Timer :=
  if t.id = i then
    { t with running := false, startTs := none, elapsedSec := 0,
             revisionSec := 0, goalFired := false }
  else t

/-- `resetDay` body (part_000 line 261). -/
def resetDayT (t : Timer) : Timer :=
  { t with running := false, startTs := none, elapsedSec := 0,
           revisionSec := 0, goalFired := false }

/-- `adjustTimer` body (part_000 lines 244‑252): while running with a
non-null `startTs` it materializes the run, clamps `elapsedSec + delta`
at 0 and restarts the session at `now`; otherwise it just clamps
`elapsedSec + delta` at 0. -/
def adjustT (i : Nat) (now delta : Int) (t : Timer) : Timer :=
  if t.id = i then
    match t.startTs with
    | some s =>
      if t.running = true then
        { t with elapsedSec := max 0 (t.elapsedSec + (now - s) + delta),
                 startTs := some now }
      else { t with elapsedSec := max 0 (t.elapsedSec + delta) }
    | none => { t with elapsedSec := max 0 (t.elapsedSec + delta) }
  else t

/-- The fresh timer built by `addTimer` (part_000 line 237). -/
def newTimer (i : Nat) : Timer :=
  { id := i, targetSec := 0, revisionSec := 0, elapsedSec := 0,
    startTs := none, running := false, goalOn := false, goalFired := false }

/-- `totals` (part_000 lines 289‑299): one pass accumulating the total and
the per-id net map (modelled as an association list in traversal order). -/
def totals (now : Int) (ts : List Timer) : Int × List (Nat × Int) :=
  ts.foldl
    (fun acc t =>
      let n := max 0 (t.elapsedSec + runExtra now t - t.revisionSec)
      (acc.1 + n, acc.2 ++ [(t.id, n)]))
    (0, [])

/-- Per-row net value of `exportCSV` (part_000 line 264). -/
def exportNets (now : Int) (ts : List Timer) : List Int :=
  ts.map fun t => max 0 (t.elapsedSec + runExtra now t - t.revisionSec)

/-- A default timer of `DEFAULT_TIMERS` (part_000 lines 40‑47): all six
entries share this shape, differing only in id, target and goal flag. -/
def defaultTimer (i : Nat) (target : Int) (goal : Bool) : Timer :=
  { id := i, targetSec := target, revisionSec := 0, elapsedSec := 0,
    startTs := none, running := false, goalOn := goal, goalFired := false }

def goalCheck (now : Int) (ts : List Timer) : List Timer :=
  ts.map fun t => (goalCheckT now t).1

def startTimer (i : Nat) (now : Int) (ts : List Timer) : List Timer :=
  ts.map (startT i now)

def pauseTimer (i : Nat) (now : Int) (ts : List Timer) : List Timer :=
  ts.map (pauseT i now)

def adjustTimer (i : Nat) (now delta : Int) (ts : List Timer) : List Timer :=
  ts.map (adjustT i now delta)

def resetTimer (i : Nat) (ts : List Timer) : List Timer :=
  ts.map (resetT i)

def resetDay (ts : List Timer) : List Timer :=
  ts.map resetDayT

def addTimer (i : Nat) (ts : List Timer) : List Timer :=
  ts ++ [newTimer i]

end VarC

namespace VarB

/-- The `t.startTs ? (Date.now() - t.startTs) / 1000 : 0` pattern of the
second `App.jsx` variant: a `null` or `0` stamp yields 0, otherwise the
millisecond span divided by 1000. -/
def spanSec (now : ℚ) (o : Option ℚ) : ℚ :=
  match o with
  | some s => if s = 0 then 0 else (now - s) / 1000
  | none => 0

/-- `timerNetSeconds` (App.jsx lines 775‑778):
`max(0, (t.elapsedSec + (t.running && t.startTs ? (now - t.startTs)/1000 : 0))
- (t.revisionSec || 0))`. -/
def timerNetSeconds (now : ℚ) (t : QTimer) : ℚ :=
  max 0 (t.elapsedSec + (if t.running = true then spanSec now t.startTs else 0)
    - t.revisionSec)

/-- Body of the 1 s goal-checker interval (App.jsx lines 781‑793): checks
every timer (running or not) against `timerNetSeconds`; the `Bool` records
whether `startCelebration` was called. -/
def goalCheckT (now : ℚ) (t : QTimer) : QTimer × Bool :=
  if t.goalOn = true ∧ t.goalFired = false ∧ 0 < t.targetSec ∧
      t.targetSec ≤ timerNetSeconds now t then
    ({ t with goalFired := true }, true)
  else (t, false)

/-- `startTimer` body (App.jsx lines 795‑807): single-focus — the
addressed timer starts (if not already running); any other running timer
is stopped with `elapsedSec := max(0, elapsedSec + add)` where `add` is
its materialized span. -/
def startT (i : Nat) (now : ℚ) (t : QTimer) : QTimer :=
  if t.id = i then
    (if t.running = true then t else { t with running := true, startTs := some now })
  else if t.running = true then
    { t with running := false, startTs := none,
             elapsedSec := max 0 (t.elapsedSec + spanSec now t.startTs) }
  else t

/-- `pauseTimer` body (App.jsx lines 808‑815). -/
def pauseT (i : Nat) (now : ℚ) (t : QTimer) : QTimer :=
  if t.id = i ∧ t.running = true then
    { t with running := false, startTs := none,
             elapsedSec := max 0 (t.elapsedSec + spanSec now t.startTs) }
  else t

/-- `resetTimer` body (App.jsx line 817). -/
def resetT (i : Nat) (t : QTimer) : QTimer :=
  if t.id = i then
    { t with running := false, startTs := none, elapsedSec := 0,
             revisionSec := 0, goalFired := false }
  else t

/-- `resetAll` body (App.jsx line 820). -/
def resetAllT (t : QTimer) : QTimer :=
  { t with running := false, startTs := none, elapsedSec := 0,
           revisionSec := 0, goalFired := false }

/-- `adjustTimer` body (App.jsx lines 824‑836): while running it captures
the run so far, clamps `elapsedSec + add + delta` at 0 and restarts the
session at `now`; otherwise it clamps `elapsedSec + delta` at 0. -/
def adjustT (i : Nat) (now delta : ℚ) (t : QTimer) : QTimer :=
  if t.id = i then
    if t.running = true then
      { t with elapsedSec := max 0 (t.elapsedSec + spanSec now t.startTs + delta),
               startTs := some now }
    else { t with elapsedSec := max 0 (t.elapsedSec + delta) }
  else t

/-- The fresh timer built by `addTimer` (App.jsx line 843). -/
def newTimer (i : Nat) : QTimer :=
  { id := i, targetSec := 0, revisionSec := 0, elapsedSec := 0,
    startTs := none, running := false, goalOn := false, goalFired := false }

/-- The single `DEFAULT_TIMERS` entry (App.jsx line 639). -/
def defaultTimer (i : Nat) : QTimer :=
  { id := i, targetSec := 11 * 3600, revisionSec := 0, elapsedSec := 0,
    startTs := none, running := false, goalOn := true, goalFired := false }

/-- Per-row `netSec` value of the standalone `exportCSV` (App.jsx line
1243): `Math.floor(Math.max(0, (t.elapsedSec + runningNow) -
(t.revisionSec||0)))` with `runningNow = t.running && t.startTs ?
(now - t.startTs)/1000 : 0`. -/
def exportNetSec (now : ℚ) (t : QTimer) : Int :=
  Int.floor (max 0 (t.elapsedSec +
    (if t.running = true then spanSec now t.startTs else 0) - t.revisionSec))

def exportNets (now : ℚ) (ts : List QTimer) : List Int :=
  ts.map (exportNetSec now)

def goalCheck (now : ℚ) (ts : List QTimer) : List QTimer :=
  ts.map fun t => (goalCheckT now t).1

def startTimer (i : Nat) (now : ℚ) (ts : List QTimer) : List QTimer :=
  ts.map (startT i now)

def pauseTimer (i : Nat) (now : ℚ) (ts : List QTimer) : List QTimer :=
  ts.map (pauseT i now)

def adjustTimer (i : Nat) (now delta : ℚ) (ts : List QTimer) : List QTimer :=
  ts.map (adjustT i now delta)

def resetTimer (i : Nat) (ts : List QTimer) : List QTimer :=
  ts.map (resetT i)

def resetAll (ts : List QTimer) : List QTimer :=
  ts.map resetAllT

def addTimer (i : Nat) (ts : List QTimer) : List QTimer :=
  newTimer i :: ts

end VarB

/-! Sample states used to evaluate the definitions on concrete inputs. -/

/-- An integer-second timer running since second 5 with nothing accrued. -/
def tRun5 : Timer :=
  { id := 1, targetSec := 0, revisionSec := 0, elapsedSec := 0,
    startTs := some 5, running := true, goalOn := false, goalFired := false }

/-- A paused integer-second timer with 10 s accrued, a 5 s target and the
goal enabled but not yet fired. -/
def tPaused10 : Timer :=
  { id := 2, targetSec := 5, revisionSec := 0, elapsedSec := 10,
    startTs := none, running := false, goalOn := true, goalFired := false }

/-- A millisecond-variant timer running since `Date.now() = 1000`. -/
def qRun1000 : QTimer :=
  { id := 3, targetSec := 0, revisionSec := 0, elapsedSec := 0,
    startTs := some 1000, running := true, goalOn := false, goalFired := false }

/-- A timer whose goal has already fired. -/
def tFired : Timer :=
  { id := 2, targetSec := 5, revisionSec := 0, elapsedSec := 10,
    startTs := none, running := false, goalOn := true, goalFired := true }

/-- A running timer carrying a 2 s revision (as a cloud-loaded state may). -/
def tRev2 : Timer :=
  { id := 1, targetSec := 0, revisionSec := 2, elapsedSec := 0,
    startTs := some 5, running := true, goalOn := false, goalFired := false }

/-! Helper lemmas. -/

/-- `part_000`'s net expression is exactly the spec invariant formula. -/
theorem VarC_net_eq_spec (now : Int) (t : Timer) :
    VarC.net now t = specNetInt now t := rfl

/-- Unfolding the `totals` fold of `part_000` over any initial accumulator. -/
theorem VarC_totals_foldl (now : Int) (ts : List Timer) (a : Int)
    (l : List (Nat × Int)) :
    ts.foldl
      (fun acc t =>
        let n := max 0 (t.elapsedSec + VarC.runExtra now t - t.revisionSec)
        (acc.1 + n, acc.2 ++ [(t.id, n)])) (a, l)
    = (a + (ts.map (specNetInt now)).sum,
       l ++ ts.map (fun t => (t.id, specNetInt now t))) := by
  induction ts generalizing a l with
  | nil => simp
  | cons h tl ih =>
    simp only [List.foldl_cons, List.map_cons, List.sum_cons, ih, Prod.mk.injEq]
    refine ⟨?_, ?_⟩
    · simp only [specNetInt, VarC.runExtra]
      omega
    · simp [specNetInt, VarC.runExtra]

/-- Unfolding the `totalTracked` reduce of the first `App.jsx` variant. -/
theorem VarA_totalTracked_foldl (ts : List Timer) (a : Int) :
    ts.foldl (fun a t => a + max 0 (t.elapsedSec - t.revisionSec)) a
      = a + (ts.map VarA.netDisplay).sum := by
  induction ts generalizing a with
  | nil => simp
  | cons h tl ih => simp [ih, VarA.netDisplay]; ring

/-! ## C1 -/

/-- C1 counterexample: in the first `App.jsx` variant the rendered
`netSeconds`, the `totalTracked` reduce and the CSV net value for a
running timer (started at second 5, evaluated at second 10) are all 0,
while the spec formula gives 5, so the claim fails for that
implementation. -/
theorem C1_cex :
    VarA.netDisplay tRun5 = 0 ∧
    VarA.totalTracked [tRun5] = 0 ∧
    VarA.exportNets [tRun5] = [0] ∧
    specNetInt 10 tRun5 = 5 ∧
    ¬ VarA.netDisplay tRun5 = specNetInt 10 tRun5 := by
  decide

/-- C1 amended: in `part_000` the per-timer values of `totals` (both the
association list and the grand total) and the CSV net values equal the
spec formula `max(0, elapsedSec + (running ? now - startTs : 0) -
revisionSec)`, as does the net the goal check uses; in the second
`App.jsx` variant `timerNetSeconds` equals the formula whenever the start
stamp is absent or nonzero (JS truthiness drops a zero stamp); in the
first `App.jsx` variant the displayed, totalled and exported value is
`max(0, elapsedSec - revisionSec)` with no running extra — it equals the
spec formula only for non-running timers. -/
theorem C1_amended :
    (∀ (now : Int) (ts : List Timer),
        (VarC.totals now ts).2 = ts.map (fun t => (t.id, specNetInt now t)) ∧
        (VarC.totals now ts).1 = (ts.map (specNetInt now)).sum) ∧
    (∀ (now : Int) (ts : List Timer),
        VarC.exportNets now ts = ts.map (specNetInt now)) ∧
    (∀ (now : Int) (t : Timer), VarC.net now t = specNetInt now t) ∧
    (∀ (now : ℚ) (t : QTimer) (s : ℚ), t.startTs = some s → s ≠ 0 →
        VarB.timerNetSeconds now t = specNetRat now t) ∧
    (∀ (now : ℚ) (t : QTimer), t.startTs = none →
        VarB.timerNetSeconds now t = specNetRat now t) ∧
    (∀ ts : List Timer,
        VarA.totalTracked ts = (ts.map VarA.netDisplay).sum ∧
        VarA.exportNets ts = ts.map VarA.netDisplay) ∧
    (∀ (now : Int) (t : Timer), t.running = false →
        VarA.netDisplay t = specNetInt now t) := by
  refine ⟨?_, ?_, ?_, ?_, ?_, ?_, ?_⟩
  · intro now ts
    unfold VarC.totals
    rw [VarC_totals_foldl]
    simp
  · intro now ts
    unfold VarC.exportNets
    simp [specNetInt, VarC.runExtra]
  · intro now t
    exact VarC_net_eq_spec now t
  · intro now t s hs h0
    unfold VarB.timerNetSeconds specNetRat VarB.spanSec
    rw [hs]
    cases t.running <;> simp [h0]
  · intro now t hs
    unfold VarB.timerNetSeconds specNetRat VarB.spanSec
    rw [hs]
    cases t.running <;> simp
  · intro ts
    constructor
    · unfold VarA.totalTracked
      rw [VarA_totalTracked_foldl]
      simp
    · rfl
  · intro now t hr
    unfold VarA.netDisplay specNetInt
    cases hs : t.startTs <;> simp [hr]

/-- C2 counterexample: in the first `App.jsx` variant the goal check lives
inside the tick loop, which skips non-running timers; the paused timer
`tPaused10` satisfies every condition of the claim (goal on, not fired,
target 5 > 0, net 10 ≥ 5) yet the tick at second 100 fires nothing and
leaves the timer unchanged. -/
theorem C2_cex :
    tPaused10.goalOn = true ∧ tPaused10.goalFired = false ∧
    0 < tPaused10.targetSec ∧ tPaused10.targetSec ≤ specNetInt 100 tPaused10 ∧
    VarA.tickT 100 tPaused10 = (tPaused10, false) := by
  decide

/-- C2 amended: at every tick, a timer with `goalOn`, `¬goalFired`,
`targetSec > 0` and net ≥ target fires the celebration and sets
`goalFired` — in `part_000` and the second `App.jsx` variant for every
such timer, but in the first `App.jsx` variant only when the timer is
also running with a non-null `startTs`; and once `goalFired` is true no
later tick fires again, every operation other than reset preserving
`goalFired`. -/
theorem C2_amended :
    (∀ (now : Int) (t : Timer), t.goalOn = true → t.goalFired = false →
        0 < t.targetSec → t.targetSec ≤ VarC.net now t →
        VarC.goalCheckT now t = ({ t with goalFired := true }, true)) ∧
    (∀ (now : ℚ) (t : QTimer), t.goalOn = true → t.goalFired = false →
        0 < t.targetSec → t.targetSec ≤ VarB.timerNetSeconds now t →
        VarB.goalCheckT now t = ({ t with goalFired := true }, true)) ∧
    (∀ (now : Int) (t : Timer) (s : Int), t.startTs = some s →
        t.running = true → t.goalOn = true → t.goalFired = false →
        0 < t.targetSec → t.targetSec ≤ specNetInt now t →
        VarA.tickT now t
          = ({ t with goalFired := true,
                      elapsedSec := t.elapsedSec + (now - s) }, true)) ∧
    (∀ (now : Int) (t : Timer), t.goalFired = true →
        VarC.goalCheckT now t = (t, false)) ∧
    (∀ (now : ℚ) (t : QTimer), t.goalFired = true →
        VarB.goalCheckT now t = (t, false)) ∧
    (∀ (now : Int) (t : Timer), t.goalFired = true →
        (VarA.tickT now t).2 = false ∧ (VarA.tickT now t).1.goalFired = true) ∧
    (∀ (i : Nat) (now delta : Int) (t : Timer),
        (VarA.startT i now t).goalFired = t.goalFired ∧
        (VarA.pauseT i now t).goalFired = t.goalFired ∧
        (VarA.adjustT i delta t).goalFired = t.goalFired ∧
        (VarC.startT i now t).goalFired = t.goalFired ∧
        (VarC.pauseT i now t).goalFired = t.goalFired ∧
        (VarC.adjustT i now delta t).goalFired = t.goalFired) ∧
    (∀ (i : Nat) (now delta : ℚ) (t : QTimer),
        (VarB.startT i now t).goalFired = t.goalFired ∧
        (VarB.pauseT i now t).goalFired = t.goalFired ∧
        (VarB.adjustT i now delta t).goalFired = t.goalFired) := by
  refine ⟨?_, ?_, ?_, ?_, ?_, ?_, ?_, ?_⟩
  · intro now t hg hf htar hnet
    unfold VarC.goalCheckT
    rw [if_neg (by simp [hg, hf]; omega), if_pos hnet]
  · intro now t hg hf htar hnet
    unfold VarB.goalCheckT
    rw [if_pos ⟨hg, hf, htar, hnet⟩]
  · intro now t s hs hr hg hf htar hnet
    have hnet' : t.targetSec ≤ max 0 (t.elapsedSec + (now - s) - t.revisionSec) := by
      simpa [specNetInt, hs, hr] using hnet
    simp only [VarA.tickT, hs, hr, if_true]
    rw [if_pos ⟨hg, hf, htar, hnet'⟩]
  · intro now t hf
    unfold VarC.goalCheckT
    rw [if_pos (Or.inr (Or.inl hf))]
  · intro now t hf
    unfold VarB.goalCheckT
    rw [if_neg (by simp [hf])]
  · intro now t hf
    unfold VarA.tickT
    cases t.startTs <;> cases hr : t.running <;> simp [hf, hr]
  · intro i now delta t
    refine ⟨?_, ?_, ?_, ?_, ?_, ?_⟩ <;>
      simp only [VarA.startT, VarA.pauseT, VarA.adjustT,
        VarC.startT, VarC.pauseT, VarC.adjustT] <;>
      (try cases t.startTs) <;> split_ifs <;> rfl
  · intro i now delta t
    refine ⟨?_, ?_, ?_⟩ <;>
      simp only [VarB.startT, VarB.pauseT, VarB.adjustT] <;>
      split_ifs <;> rfl

/-- C2 amended witness at concrete inputs: the goal check of `part_000`
fires for the paused timer `tPaused10`, the first-variant tick fires for
a running timer that has crossed its target, and a fired timer is left
alone. -/
theorem C2_amended_witness :
    VarC.goalCheckT 100 tPaused10 = ({ tPaused10 with goalFired := true }, true) ∧
    VarC.goalCheckT 100 tFired = (tFired, false) := by
  refine ⟨C2_amended.1 100 tPaused10 rfl rfl (by decide) (by decide),
    C2_amended.2.2.2.1 100 tFired rfl⟩

/-- C1 amended witness at concrete inputs. -/
theorem C1_amended_witness :
    (VarC.totals 10 [tRun5, tPaused10]).2 = [(1, 5), (2, 10)] ∧
    qRun1000.startTs = some 1000 ∧ (1000 : ℚ) ≠ 0 ∧
    VarB.timerNetSeconds 2000 qRun1000 = specNetRat 2000 qRun1000 ∧
    tPaused10.running = false ∧
    VarA.netDisplay tPaused10 = specNetInt 7 tPaused10 := by
  refine ⟨?_, rfl, by norm_num, C1_amended.2.2.2.1 2000 qRun1000 1000 rfl (by norm_num),
    rfl, C1_amended.2.2.2.2.2.2 7 tPaused10 rfl⟩
  rw [(C1_amended.1 10 [tRun5, tPaused10]).1]
  decide

/-! ## C3 -/

/-- C3 counterexample: in the first `App.jsx` variant `adjustTimer` does
not materialize the run of a running timer — for `tRev2` (running since
second 5) adjusted by 3 at second 10, `elapsedSec` and `startTs` are left
untouched, contradicting the claimed materialize-then-adjust step. -/
theorem C3_cex :
    tRev2.running = true ∧
    VarA.adjustT 1 3 tRev2 = { tRev2 with revisionSec := 0 } ∧
    ¬ ((VarA.adjustT 1 3 tRev2).elapsedSec = tRev2.elapsedSec + (10 - 5) ∧
       (VarA.adjustT 1 3 tRev2).startTs = some 10) := by
  decide

/-- C3 amended: in `part_000` and the second `App.jsx` variant, `adjust`
on a running timer (non-null — and for the second variant nonzero — start
stamp) materializes the run into `elapsedSec`, restarts the session at
`now`, and applies the delta with `elapsedSec` clamped at 0 (so net time,
already clamped by the net formula, is never negative); on a paused timer
it clamps `elapsedSec + delta` at 0.  The revision-based first `App.jsx`
variant performs no materialization at all: whatever the running state,
it only moves `revisionSec` to `max(0, revisionSec - delta)`, leaving
`elapsedSec` and `startTs` untouched. -/
theorem C3_amended :
    (∀ (i : Nat) (now delta : Int) (t : Timer) (s : Int), t.id = i →
        t.running = true → t.startTs = some s →
        VarC.adjustT i now delta t
          = { t with elapsedSec := max 0 (t.elapsedSec + (now - s) + delta),
                     startTs := some now } ∧
        0 ≤ VarC.net now (VarC.adjustT i now delta t)) ∧
    (∀ (i : Nat) (now delta : Int) (t : Timer), t.id = i → t.running = false →
        VarC.adjustT i now delta t
          = { t with elapsedSec := max 0 (t.elapsedSec + delta) } ∧
        0 ≤ VarC.net now (VarC.adjustT i now delta t)) ∧
    (∀ (i : Nat) (now delta : ℚ) (t : QTimer) (s : ℚ), t.id = i →
        t.running = true → t.startTs = some s → s ≠ 0 →
        VarB.adjustT i now delta t
          = { t with elapsedSec := max 0 (t.elapsedSec + (now - s) / 1000 + delta),
                     startTs := some now } ∧
        0 ≤ VarB.timerNetSeconds now (VarB.adjustT i now delta t)) ∧
    (∀ (i : Nat) (now delta : ℚ) (t : QTimer), t.id = i → t.running = false →
        VarB.adjustT i now delta t
          = { t with elapsedSec := max 0 (t.elapsedSec + delta) } ∧
        0 ≤ VarB.timerNetSeconds now (VarB.adjustT i now delta t)) ∧
    (∀ (i : Nat) (delta : Int) (t : Timer), t.id = i →
        VarA.adjustT i delta t
          = { t with revisionSec := max 0 (t.revisionSec - delta) } ∧
        (VarA.adjustT i delta t).elapsedSec = t.elapsedSec ∧
        (VarA.adjustT i delta t).startTs = t.startTs ∧
        0 ≤ VarA.netDisplay (VarA.adjustT i delta t)) := by
  refine ⟨?_, ?_, ?_, ?_, ?_⟩
  · intro i now delta t s hid hr hs
    refine ⟨by simp [VarC.adjustT, hid, hr, hs], le_max_left 0 _⟩
  · intro i now delta t hid hr
    refine ⟨?_, le_max_left 0 _⟩
    cases hs : t.startTs <;> simp [VarC.adjustT, hid, hr, hs]
  · intro i now delta t s hid hr hs hs0
    refine ⟨by simp [VarB.adjustT, VarB.spanSec, hid, hr, hs, hs0], le_max_left 0 _⟩
  · intro i now delta t hid hr
    refine ⟨by simp [VarB.adjustT, hid, hr], le_max_left 0 _⟩
  · intro i delta t hid
    refine ⟨by simp [VarA.adjustT, hid], ?_, ?_, le_max_left 0 _⟩ <;>
      simp [VarA.adjustT, hid]

/-- C3 amended witness at concrete inputs: adjusting the running `tRun5`
by +3 at second 10 in `part_000` materializes 5 s, clamps and restarts;
the same adjust in the first variant only moves `revisionSec`. -/
theorem C3_amended_witness :
    VarC.adjustT 1 10 3 tRun5
      = { tRun5 with elapsedSec := 8, startTs := some 10 } ∧
    VarA.adjustT 1 3 tRun5 = { tRun5 with revisionSec := 0 } := by
  constructor
  · have h := (C3_amended.1 1 10 3 tRun5 5 rfl rfl rfl).1
    simpa using h
  · exact (C3_amended.2.2.2.2 1 3 tRun5 rfl).1

/-! ## C4 -/

/-- C4 counterexample: in the first `App.jsx` variant, adjusting the
running `tRev2` (net 1 at second 8) by +10 only clears its 2 s revision:
the net becomes 3, not `max(0, 1 + 10) = 11`. -/
theorem C4_cex :
    tRev2.running = true ∧
    specNetInt 8 tRev2 = 1 ∧
    specNetInt 8 (VarA.adjustT 1 10 tRev2) = 3 ∧
    ¬ specNetInt 8 (VarA.adjustT 1 10 tRev2)
        = max 0 (specNetInt 8 tRev2 + 10) := by
  decide

/-- C4 amended: the no-loss/no-double-count relation
`net after = max(0, net before + delta)` holds for a running timer in
`part_000` and the second `App.jsx` variant provided
`0 ≤ revisionSec ≤ elapsedSec + run-so-far` (in particular always when
`revisionSec = 0`, the only value local operations ever produce there);
in the revision-based first `App.jsx` variant it holds provided
`delta ≤ revisionSec ≤ elapsedSec + run-so-far`.  Outside these ranges
the clamps on `elapsedSec` (resp. `revisionSec`) absorb part of the
delta, as the counterexample shows. -/
theorem C4_amended :
    (∀ (i : Nat) (now delta : Int) (t : Timer) (s : Int), t.id = i →
        t.running = true → t.startTs = some s →
        0 ≤ t.revisionSec → t.revisionSec ≤ t.elapsedSec + (now - s) →
        VarC.net now (VarC.adjustT i now delta t)
          = max 0 (VarC.net now t + delta)) ∧
    (∀ (i : Nat) (now delta : ℚ) (t : QTimer) (s : ℚ), t.id = i →
        t.running = true → t.startTs = some s → s ≠ 0 →
        0 ≤ t.revisionSec →
        t.revisionSec ≤ t.elapsedSec + (now - s) / 1000 →
        VarB.timerNetSeconds now (VarB.adjustT i now delta t)
          = max 0 (VarB.timerNetSeconds now t + delta)) ∧
    (∀ (i : Nat) (now delta : Int) (t : Timer) (s : Int), t.id = i →
        t.running = true → t.startTs = some s →
        delta ≤ t.revisionSec →
        t.revisionSec ≤ t.elapsedSec + (now - s) →
        specNetInt now (VarA.adjustT i delta t)
          = max 0 (specNetInt now t + delta)) := by
  refine ⟨?_, ?_, ?_⟩
  · intro i now delta t s hid hr hs h0 hE
    simp only [VarC.adjustT, VarC.net, VarC.runExtra, hid, hr, hs, if_pos rfl, if_true]
    simp only [max_def]
    split_ifs <;> omega
  · intro i now delta t s hid hr hs hs0 h0 hE
    simp only [VarB.adjustT, VarB.timerNetSeconds, VarB.spanSec, hid, hr, hs,
      if_pos rfl, if_true, if_neg hs0]
    rcases eq_or_ne now 0 with hn | hn <;>
      · simp only [hn, max_def, sub_self, zero_div, if_true, if_neg, ite_self]
        split_ifs <;> linarith
  · intro i now delta t s hid hr hs hd hE
    simp only [VarA.adjustT, specNetInt, hid, hr, hs, if_pos rfl, if_true]
    simp only [max_def]
    split_ifs <;> omega

/-- C4 amended witness at concrete inputs: adjusting the running `tRun5`
(no revision) by −2 at second 10 in `part_000` gives net
`max(0, 5 − 2) = 3`, and adjusting `tRev2` by +1 in the first variant
gives net `max(0, 1 + 1) = 2`. -/
theorem C4_amended_witness :
    VarC.net 10 (VarC.adjustT 1 10 (-2) tRun5)
      = max 0 (VarC.net 10 tRun5 + (-2)) ∧
    specNetInt 8 (VarA.adjustT 1 1 tRev2) = max 0 (specNetInt 8 tRev2 + 1) := by
  refine ⟨C4_amended.1 1 10 (-2) tRun5 5 rfl rfl rfl (by decide) (by decide),
    C4_amended.2.2 1 8 1 tRev2 5 rfl rfl rfl (by decide) (by decide)⟩

/-! ## C5 -/

/-- C5 counterexample: the first `App.jsx` variant's CSV rows carry
`max(0, elapsedSec - revisionSec)` with no running extra — for the
running `tRun5` the exported value is 0 while the spec formula at export
time 10 gives 5. -/
theorem C5_cex :
    tRun5.running = true ∧
    VarA.exportNets [tRun5] = [0] ∧
    specNetInt 10 tRun5 = 5 ∧
    ¬ VarA.exportNets [tRun5] = [specNetInt 10 tRun5] := by
  decide

/-- C5 amended: `part_000`'s CSV rows carry exactly the spec formula
evaluated at the `nowSec` of the export; the second `App.jsx` variant's
rows carry the *floor* of the formula (its seconds are fractional), with
a zero start stamp treated as absent; the first `App.jsx` variant's rows
carry `max(0, elapsedSec - revisionSec)` with no running extra, matching
the formula only for non-running timers. -/
theorem C5_amended :
    (∀ (now : Int) (ts : List Timer),
        VarC.exportNets now ts = ts.map (specNetInt now)) ∧
    (∀ (now : ℚ) (t : QTimer) (s : ℚ), t.startTs = some s → s ≠ 0 →
        VarB.exportNetSec now t = Int.floor (specNetRat now t)) ∧
    (∀ (now : ℚ) (t : QTimer), t.startTs = none →
        VarB.exportNetSec now t = Int.floor (specNetRat now t)) ∧
    (∀ ts : List Timer,
        VarA.exportNets ts
          = ts.map fun t => max 0 (t.elapsedSec - t.revisionSec)) ∧
    (∀ (now : Int) (t : Timer), t.running = false →
        max 0 (t.elapsedSec - t.revisionSec) = specNetInt now t) := by
  refine ⟨?_, ?_, ?_, ?_, ?_⟩
  · intro now ts
    unfold VarC.exportNets
    simp [specNetInt, VarC.runExtra]
  · intro now t s hs h0
    unfold VarB.exportNetSec specNetRat VarB.spanSec
    rw [hs]
    cases t.running <;> simp [h0]
  · intro now t hs
    unfold VarB.exportNetSec specNetRat VarB.spanSec
    rw [hs]
    cases t.running <;> simp
  · intro ts
    rfl
  · intro now t hr
    unfold specNetInt
    cases hs : t.startTs <;> simp [hr]

/-- C5 amended witness at concrete inputs: the `part_000` export of the
two sample timers at second 10, and the floored row of the millisecond
variant for `qRun1000` at `Date.now() = 2500` (net 1.5 s → row 1). -/
theorem C5_amended_witness :
    VarC.exportNets 10 [tRun5, tPaused10] = [5, 10] ∧
    VarB.exportNetSec 2500 qRun1000 = Int.floor (specNetRat 2500 qRun1000) ∧
    VarB.exportNetSec 2500 qRun1000 = 1 := by
  refine ⟨?_, C5_amended.2.1 2500 qRun1000 1000 rfl (by norm_num), ?_⟩
  · rw [C5_amended.1 10 [tRun5, tPaused10]]
    decide
  · unfold VarB.exportNetSec VarB.spanSec qRun1000
    norm_num

/-! ## C6 -/

/-- C6 confirmed: in all three implementations, pausing a running timer
adds the span since its start stamp to `elapsedSec` (in the millisecond
variant, the millisecond span divided by 1000), clears `startTs` and
`running`; pausing a non-running timer (or a timer other than the
addressed one) changes nothing.  The hypotheses `0 < s` / `s ≠ 0`
(`startTs` is a genuine positive clock stamp — every run state the code
creates sets it to the current time), `s ≤ now` and `0 ≤ elapsedSec`
(needed only for the millisecond variant's clamp) hold for every state
the program produces. -/
theorem C6_pause :
    (∀ (i : Nat) (now : Int) (t : Timer) (s : Int), t.id = i →
        t.running = true → t.startTs = some s → 0 < s →
        VarA.pauseT i now t
          = { t with running := false, startTs := none,
                     elapsedSec := t.elapsedSec + (now - s) }) ∧
    (∀ (i : Nat) (now : Int) (t : Timer), t.running = false →
        VarA.pauseT i now t = t) ∧
    (∀ (i : Nat) (now : Int) (t : Timer), t.id ≠ i →
        VarA.pauseT i now t = t) ∧
    (∀ (i : Nat) (now : Int) (t : Timer) (s : Int), t.id = i →
        t.running = true → t.startTs = some s → 0 < s →
        VarC.pauseT i now t
          = { t with running := false, startTs := none,
                     elapsedSec := t.elapsedSec + (now - s) }) ∧
    (∀ (i : Nat) (now : Int) (t : Timer), t.running = false →
        VarC.pauseT i now t = t) ∧
    (∀ (i : Nat) (now : Int) (t : Timer), t.id ≠ i →
        VarC.pauseT i now t = t) ∧
    (∀ (i : Nat) (now : ℚ) (t : QTimer) (s : ℚ), t.id = i →
        t.running = true → t.startTs = some s → s ≠ 0 →
        s ≤ now → 0 ≤ t.elapsedSec →
        VarB.pauseT i now t
          = { t with running := false, startTs := none,
                     elapsedSec := t.elapsedSec + (now - s) / 1000 }) ∧
    (∀ (i : Nat) (now : ℚ) (t : QTimer), t.running = false →
        VarB.pauseT i now t = t) ∧
    (∀ (i : Nat) (now : ℚ) (t : QTimer), t.id ≠ i →
        VarB.pauseT i now t = t) := by
  refine ⟨?_, ?_, ?_, ?_, ?_, ?_, ?_, ?_, ?_⟩
  · intro i now t s hid hr hs h0
    unfold VarA.pauseT startOr
    rw [if_pos ⟨hid, hr⟩, hs]
    simp [show s ≠ 0 by omega]
  · intro i now t hr
    unfold VarA.pauseT
    rw [if_neg (by simp [hr])]
  · intro i now t hid
    unfold VarA.pauseT
    rw [if_neg (by simp [hid])]
  · intro i now t s hid hr hs h0
    unfold VarC.pauseT startOr
    rw [if_pos ⟨hid, hr⟩, hs]
    simp [show s ≠ 0 by omega]
  · intro i now t hr
    unfold VarC.pauseT
    rw [if_neg (by simp [hr])]
  · intro i now t hid
    unfold VarC.pauseT
    rw [if_neg (by simp [hid])]
  · intro i now t s hid hr hs h0 hnow he
    unfold VarB.pauseT VarB.spanSec
    rw [if_pos ⟨hid, hr⟩, hs]
    have hspan : (0 : ℚ) ≤ (now - s) / 1000 :=
      div_nonneg (by linarith) (by norm_num)
    simp only [if_neg h0]
    rw [max_eq_right (by linarith)]
  · intro i now t hr
    unfold VarB.pauseT
    rw [if_neg (by simp [hr])]
  · intro i now t hid
    unfold VarB.pauseT
    rw [if_neg (by simp [hid])]

/-- C6 witness at concrete inputs: pausing the running `tRun5` at second
12 accrues 7 s in both integer variants; pausing `qRun1000` at
millisecond 2000 accrues 1 s; pausing the paused `tPaused10` is a no-op. -/
theorem C6_pause_witness :
    VarA.pauseT 1 12 tRun5
      = { tRun5 with running := false, startTs := none, elapsedSec := 7 } ∧
    VarB.pauseT 3 2000 qRun1000
      = { qRun1000 with running := false, startTs := none, elapsedSec := 1 } ∧
    VarC.pauseT 2 12 tPaused10 = tPaused10 := by
  refine ⟨?_, ?_, C6_pause.2.2.2.2.1 2 12 tPaused10 rfl⟩
  · have h := C6_pause.1 1 12 tRun5 5 rfl rfl rfl (by decide)
    simpa using h
  · have h := C6_pause.2.2.2.2.2.2.1 3 2000 qRun1000 1000 rfl rfl rfl
      (by norm_num) (by norm_num) (by norm_num [qRun1000])
    rw [h]
    simp only [qRun1000, QTimer.mk.injEq]
    norm_num

/-! ## C7 -/

/-- C7 confirmed: in all three implementations, starting a non-running
timer sets `running = true` and `startTs = now` (an already-running
target is untouched).  The single-focus variants (`part_000` and the
second `App.jsx` variant) additionally stop every *other* running timer,
first materializing its span into `elapsedSec`; the first `App.jsx`
variant leaves every other timer untouched.  Hypotheses on the other
timer's stamp as in the pause theorem. -/
theorem C7_start :
    (∀ (i : Nat) (now : Int) (t : Timer), t.id = i → t.running = false →
        VarA.startT i now t = { t with running := true, startTs := some now }) ∧
    (∀ (i : Nat) (now : Int) (t : Timer), t.id ≠ i →
        VarA.startT i now t = t) ∧
    (∀ (i : Nat) (now : Int) (t : Timer), t.id = i → t.running = false →
        VarC.startT i now t = { t with running := true, startTs := some now }) ∧
    (∀ (i : Nat) (now : Int) (t : Timer) (s : Int), t.id ≠ i →
        t.running = true → t.startTs = some s → 0 < s →
        VarC.startT i now t
          = { t with running := false, startTs := none,
                     elapsedSec := t.elapsedSec + (now - s) }) ∧
    (∀ (i : Nat) (now : Int) (t : Timer), t.id ≠ i → t.running = false →
        VarC.startT i now t = t) ∧
    (∀ (i : Nat) (now : ℚ) (t : QTimer), t.id = i → t.running = false →
        VarB.startT i now t = { t with running := true, startTs := some now }) ∧
    (∀ (i : Nat) (now : ℚ) (t : QTimer) (s : ℚ), t.id ≠ i →
        t.running = true → t.startTs = some s → s ≠ 0 →
        s ≤ now → 0 ≤ t.elapsedSec →
        VarB.startT i now t
          = { t with running := false, startTs := none,
                     elapsedSec := t.elapsedSec + (now - s) / 1000 }) ∧
    (∀ (i : Nat) (now : ℚ) (t : QTimer), t.id ≠ i → t.running = false →
        VarB.startT i now t = t) := by
  refine ⟨?_, ?_, ?_, ?_, ?_, ?_, ?_, ?_⟩
  · intro i now t hid hr
    simp [VarA.startT, hid, hr]
  · intro i now t hid
    simp [VarA.startT, hid]
  · intro i now t hid hr
    simp [VarC.startT, hid, hr]
  · intro i now t s hid hr hs h0
    unfold VarC.startT startOr
    rw [if_neg (by simp [hid]), if_pos hr, hs]
    simp [show s ≠ 0 by omega]
  · intro i now t hid hr
    unfold VarC.startT
    rw [if_neg (by simp [hid]), if_neg (by simp [hr])]
  · intro i now t hid hr
    simp [VarB.startT, hid, hr]
  · intro i now t s hid hr hs h0 hnow he
    unfold VarB.startT VarB.spanSec
    rw [if_neg (by simp [hid]), if_pos hr, hs]
    have hspan : (0 : ℚ) ≤ (now - s) / 1000 :=
      div_nonneg (by linarith) (by norm_num)
    simp only [if_neg h0]
    rw [max_eq_right (by linarith)]
  · intro i now t hid hr
    unfold VarB.startT
    rw [if_neg (by simp [hid]), if_neg (by simp [hr])]

/-- C7 witness at concrete inputs: starting timer 2 at second 20 starts
the paused `tPaused10` and (single-focus `part_000`) stops the running
`tRun5`, materializing 15 s; the first variant leaves `tRun5` untouched. -/
theorem C7_start_witness :
    VarC.startT 2 20 tPaused10
      = { tPaused10 with running := true, startTs := some 20 } ∧
    VarC.startT 2 20 tRun5
      = { tRun5 with running := false, startTs := none, elapsedSec := 15 } ∧
    VarA.startT 2 20 tRun5 = tRun5 := by
  refine ⟨C7_start.2.2.1 2 20 tPaused10 rfl rfl, ?_,
    C7_start.2.1 2 20 tRun5 (by decide)⟩
  have h := C7_start.2.2.2.1 2 20 tRun5 5 (by decide) rfl rfl (by decide)
  simpa using h

/-! ## C8 -/

/-- C8: the run sequence start@10, pause@12, start@13, pause@14 accrues
exactly (12−10)+(14−13) = 3 s in `part_000` (whose tick never touches
timer state — shown with goal checks interleaved) and in the second
`App.jsx` variant (instants in milliseconds), but in the first `App.jsx`
variant, whose per-second tick folds `now - startTs` into `elapsedSec`
*without resetting `startTs`*, ticks at 11 and 12 double-count the run:
the same sequence accrues 6 s.  The spec's property is the clear intent
for a time tracker and the other two implementations satisfy it, so the
first variant's tick is a code bug. -/
theorem C8_bug :
    (VarC.pauseT 1 14
      (VarC.startT 1 13
        (VarC.pauseT 1 12
          (VarC.goalCheckT 12
            (VarC.goalCheckT 11
              (VarC.startT 1 10 (VarC.newTimer 1))).1).1))).elapsedSec = 3 ∧
    (VarB.pauseT 1 14000
      (VarB.startT 1 13000
        (VarB.pauseT 1 12000
          (VarB.goalCheckT 12000
            (VarB.goalCheckT 11000
              (VarB.startT 1 10000 (VarB.newTimer 1))).1).1))).elapsedSec = 3 ∧
    (VarA.pauseT 1 14
      (VarA.startT 1 13
        (VarA.pauseT 1 12
          (VarA.tickT 12
            (VarA.tickT 11
              (VarA.startT 1 10 (VarA.newTimer 1))).1).1))).elapsedSec = 6 ∧
    ¬ (VarA.pauseT 1 14
        (VarA.startT 1 13
          (VarA.pauseT 1 12
            (VarA.tickT 12
              (VarA.tickT 11
                (VarA.startT 1 10 (VarA.newTimer 1))).1).1))).elapsedSec = 3 := by
  refine ⟨by decide, ?_, by decide, by decide⟩
  norm_num [VarB.pauseT, VarB.startT, VarB.goalCheckT, VarB.timerNetSeconds,
    VarB.spanSec, VarB.newTimer]

/-- Evaluation of `spanSec` at a nonzero stamp. -/
theorem spanSec_some (now s : ℚ) (h0 : s ≠ 0) :
    VarB.spanSec now (some s) = (now - s) / 1000 := by
  show (if s = 0 then 0 else (now - s) / 1000) = (now - s) / 1000
  rw [if_neg h0]

/-- `timerNetSeconds` of a non-running timer ignores `now`. -/
theorem timerNet_eq_notrun (now : ℚ) (t : QTimer) (hr : t.running = false) :
    VarB.timerNetSeconds now t = max 0 (t.elapsedSec - t.revisionSec) := by
  unfold VarB.timerNetSeconds
  rw [hr]
  simp

/-- `timerNetSeconds` of a timer without a stamp ignores `now`. -/
theorem timerNet_eq_none (now : ℚ) (t : QTimer) (hs : t.startTs = none) :
    VarB.timerNetSeconds now t = max 0 (t.elapsedSec - t.revisionSec) := by
  unfold VarB.timerNetSeconds VarB.spanSec
  rw [hs]
  cases t.running <;> simp

/-- `timerNetSeconds` of a timer with a zero stamp ignores `now`
(JS truthiness treats the stamp as absent). -/
theorem timerNet_eq_some0 (now : ℚ) (t : QTimer) (hs : t.startTs = some 0) :
    VarB.timerNetSeconds now t = max 0 (t.elapsedSec - t.revisionSec) := by
  unfold VarB.timerNetSeconds VarB.spanSec
  rw [hs]
  cases t.running <;> simp

/-- `timerNetSeconds` of a running timer with a nonzero stamp. -/
theorem timerNet_eq_run (now : ℚ) (t : QTimer) (s : ℚ) (hs : t.startTs = some s)
    (h0 : s ≠ 0) (hr : t.running = true) :
    VarB.timerNetSeconds now t
      = max 0 (t.elapsedSec + (now - s) / 1000 - t.revisionSec) := by
  unfold VarB.timerNetSeconds
  rw [hs, hr]
  show max 0 (t.elapsedSec + VarB.spanSec now (some s) - t.revisionSec)
      = max 0 (t.elapsedSec + (now - s) / 1000 - t.revisionSec)
  rw [spanSec_some now s h0]

/-- `part_000`'s net of a running timer with a stamp. -/
theorem VarC_net_run (now : Int) (t : Timer) (s : Int) (hs : t.startTs = some s)
    (hr : t.running = true) :
    VarC.net now t = max 0 (t.elapsedSec + (now - s) - t.revisionSec) := by
  unfold VarC.net VarC.runExtra
  rw [hs, hr]
  simp

/-- `part_000`'s net of a non-running timer ignores `now`. -/
theorem VarC_net_notrun (now : Int) (t : Timer) (hr : t.running = false) :
    VarC.net now t = max 0 (t.elapsedSec - t.revisionSec) := by
  unfold VarC.net VarC.runExtra
  cases hs : t.startTs <;> simp [hr]

/-! ## C9 -/

/-- C9 confirmed: net seconds never decreases while no adjustment is
applied.  Conjuncts: (1) `part_000`'s net is monotone in `now`; (2) so is
the second variant's `timerNetSeconds`; (3) the first variant's displayed
net ignores `now` and each tick only grows it (given `startTs ≤ now`),
and a tick without a stamp is a no-op; (4–5) `part_000`: pausing at
`p ≥ now1` yields a state whose net (at any later instant) dominates the
net at `now1`, and restarting a paused timer at `q` dominates its net at
`q` from any `now2 ≥ q`; (6–7) the same two boundary facts for the
millisecond variant; (8) the first variant's `startTimer` leaves the
displayed net unchanged and (9) its `pauseTimer` only grows it (given
`startTs ≤ now`). -/
theorem C9_monotone :
    (∀ (t : Timer) (now1 now2 : Int), now1 ≤ now2 →
        VarC.net now1 t ≤ VarC.net now2 t) ∧
    (∀ (t : QTimer) (now1 now2 : ℚ), now1 ≤ now2 →
        VarB.timerNetSeconds now1 t ≤ VarB.timerNetSeconds now2 t) ∧
    (∀ (t : Timer) (now s : Int), t.startTs = some s → s ≤ now →
        VarA.netDisplay t ≤ VarA.netDisplay (VarA.tickT now t).1) ∧
    (∀ (t : Timer) (now : Int), t.startTs = none →
        (VarA.tickT now t).1 = t) ∧
    (∀ (i : Nat) (now1 now2 p : Int) (t : Timer) (s : Int), t.id = i →
        t.running = true → t.startTs = some s → 0 < s → now1 ≤ p →
        VarC.net now1 t ≤ VarC.net now2 (VarC.pauseT i p t)) ∧
    (∀ (i : Nat) (q now2 : Int) (t : Timer), t.id = i →
        t.running = false → q ≤ now2 →
        VarC.net q t ≤ VarC.net now2 (VarC.startT i q t)) ∧
    (∀ (i : Nat) (now1 now2 p : ℚ) (t : QTimer) (s : ℚ), t.id = i →
        t.running = true → t.startTs = some s → s ≠ 0 → now1 ≤ p →
        VarB.timerNetSeconds now1 t
          ≤ VarB.timerNetSeconds now2 (VarB.pauseT i p t)) ∧
    (∀ (i : Nat) (q now2 : ℚ) (t : QTimer), t.id = i →
        t.running = false → q ≤ now2 →
        VarB.timerNetSeconds q t
          ≤ VarB.timerNetSeconds now2 (VarB.startT i q t)) ∧
    (∀ (i : Nat) (now : Int) (t : Timer),
        VarA.netDisplay (VarA.startT i now t) = VarA.netDisplay t) ∧
    (∀ (i : Nat) (now : Int) (t : Timer) (s : Int), t.id = i →
        t.running = true → t.startTs = some s → 0 < s → s ≤ now →
        VarA.netDisplay t ≤ VarA.netDisplay (VarA.pauseT i now t)) := by
  refine ⟨?_, ?_, ?_, ?_, ?_, ?_, ?_, ?_, ?_, ?_⟩
  · intro t now1 now2 h
    unfold VarC.net VarC.runExtra
    cases hs : t.startTs with
    | none => simp
    | some s =>
      cases hr : t.running with
      | false => simp
      | true =>
        simp only [max_def]
        split_ifs <;> omega
  · intro t now1 now2 h
    cases hrun : t.running with
    | false => rw [timerNet_eq_notrun now1 t hrun, timerNet_eq_notrun now2 t hrun]
    | true =>
      cases hs : t.startTs with
      | none => rw [timerNet_eq_none now1 t hs, timerNet_eq_none now2 t hs]
      | some s =>
        rcases eq_or_ne s 0 with h0 | h0
        · subst h0
          rw [timerNet_eq_some0 now1 t hs, timerNet_eq_some0 now2 t hs]
        · rw [timerNet_eq_run now1 t s hs h0 hrun,
              timerNet_eq_run now2 t s hs h0 hrun]
          have e1 : (now2 - s) / 1000 - (now1 - s) / 1000
              = (now2 - now1) / 1000 := by ring
          have e2 : (0:ℚ) ≤ (now2 - now1) / 1000 :=
            div_nonneg (by linarith) (by norm_num)
          exact max_le_max le_rfl (by linarith)
  · intro t now s hs hnow
    unfold VarA.tickT
    rw [hs]
    cases hr : t.running with
    | false => simp
    | true =>
      simp only [if_pos rfl]
      split_ifs <;>
        · unfold VarA.netDisplay
          simp only [max_def]
          split_ifs <;> omega
  · intro t now hs
    unfold VarA.tickT
    rw [hs]
  · intro i now1 now2 p t s hid hr hs h0 hp
    unfold VarC.pauseT startOr
    rw [if_pos ⟨hid, hr⟩, hs]
    simp only [if_neg (by omega : ¬ s = 0)]
    rw [VarC_net_run now1 t s hs hr, VarC_net_notrun now2 _ rfl]
    show max 0 (t.elapsedSec + (now1 - s) - t.revisionSec)
        ≤ max 0 (t.elapsedSec + (p - s) - t.revisionSec)
    simp only [max_def]
    split_ifs <;> omega
  · intro i q now2 t hid hr hq
    unfold VarC.startT
    rw [if_pos hid, if_neg (by simp [hr])]
    rw [VarC_net_notrun q t hr, VarC_net_run now2 _ q rfl rfl]
    show max 0 (t.elapsedSec - t.revisionSec)
        ≤ max 0 (t.elapsedSec + (now2 - q) - t.revisionSec)
    simp only [max_def]
    split_ifs <;> omega
  · intro i now1 now2 p t s hid hr hs h0 hp
    unfold VarB.pauseT
    rw [if_pos ⟨hid, hr⟩]
    rw [timerNet_eq_run now1 t s hs h0 hr, timerNet_eq_notrun now2 _ rfl]
    show max 0 (t.elapsedSec + (now1 - s) / 1000 - t.revisionSec)
        ≤ max 0 (max 0 (t.elapsedSec + VarB.spanSec p t.startTs) - t.revisionSec)
    rw [hs, spanSec_some p s h0]
    have e1 : (now1 - s) / 1000 ≤ (p - s) / 1000 := by
      have d1 : (p - s) / 1000 - (now1 - s) / 1000 = (p - now1) / 1000 := by ring
      have d2 : (0:ℚ) ≤ (p - now1) / 1000 := div_nonneg (by linarith) (by norm_num)
      linarith
    have e3 := le_max_right (0:ℚ) (t.elapsedSec + (p - s) / 1000)
    exact max_le_max le_rfl (by linarith)
  · intro i q now2 t hid hr hq
    unfold VarB.startT
    rw [if_pos hid, if_neg (by simp [hr])]
    rw [timerNet_eq_notrun q t hr]
    rcases eq_or_ne q 0 with h0 | h0
    · rw [timerNet_eq_some0 now2 ({ t with running := true, startTs := some q } : QTimer)
        (by rw [h0])]
    · rw [timerNet_eq_run now2 ({ t with running := true, startTs := some q } : QTimer)
        q rfl h0 rfl]
      show max 0 (t.elapsedSec - t.revisionSec)
          ≤ max 0 (t.elapsedSec + (now2 - q) / 1000 - t.revisionSec)
      have e2 : (0:ℚ) ≤ (now2 - q) / 1000 := div_nonneg (by linarith) (by norm_num)
      exact max_le_max le_rfl (by linarith)
  · intro i now t
    unfold VarA.startT VarA.netDisplay
    split_ifs <;> rfl
  · intro i now t s hid hr hs h0 hnow
    unfold VarA.pauseT startOr
    rw [if_pos ⟨hid, hr⟩, hs]
    simp only [if_neg (by omega : ¬ s = 0)]
    unfold VarA.netDisplay
    simp only [max_def]
    split_ifs <;> omega

/-- C9 witness at concrete inputs: the `part_000` net of the running
`tRun5` grows from second 10 to 12, and the first variant's tick at 11
does not shrink its displayed net. -/
theorem C9_monotone_witness :
    VarC.net 10 tRun5 ≤ VarC.net 12 tRun5 ∧
    VarA.netDisplay tRun5 ≤ VarA.netDisplay (VarA.tickT 11 tRun5).1 ∧
    VarC.net 10 tRun5 ≤ VarC.net 20 (VarC.pauseT 1 12 tRun5) := by
  refine ⟨C9_monotone.1 tRun5 10 12 (by decide),
    C9_monotone.2.2.1 tRun5 11 5 rfl (by decide),
    C9_monotone.2.2.2.2.1 1 10 20 12 tRun5 5 rfl rfl rfl (by decide) (by decide)⟩

/-! ## C10 -/

/-- C10 confirmed: every locally created timer state (the `addTimer`
fresh timers and the `DEFAULT_TIMERS` entries) satisfies
`running = true ↔ startTs ≠ null`, and every local operation — start,
pause, reset, reset-day, adjust, the per-second tick and the goal
check — preserves the invariant, in all three implementations. -/
theorem C10_invariant :
    (∀ i : Nat, TimerWF (VarA.newTimer i) ∧ TimerWF (VarC.newTimer i) ∧
        QTimerWF (VarB.newTimer i) ∧ QTimerWF (VarB.defaultTimer i)) ∧
    (∀ (i : Nat) (target : Int) (goal : Bool),
        TimerWF (VarC.defaultTimer i target goal)) ∧
    (∀ (i : Nat) (now delta : Int) (t : Timer), TimerWF t →
        TimerWF (VarA.startT i now t) ∧ TimerWF (VarA.pauseT i now t) ∧
        TimerWF (VarA.adjustT i delta t) ∧ TimerWF (VarA.resetT i t) ∧
        TimerWF (VarA.resetDayT t) ∧ TimerWF (VarA.tickT now t).1) ∧
    (∀ (i : Nat) (now delta : Int) (t : Timer), TimerWF t →
        TimerWF (VarC.startT i now t) ∧ TimerWF (VarC.pauseT i now t) ∧
        TimerWF (VarC.adjustT i now delta t) ∧ TimerWF (VarC.resetT i t) ∧
        TimerWF (VarC.resetDayT t) ∧ TimerWF (VarC.goalCheckT now t).1) ∧
    (∀ (i : Nat) (now delta : ℚ) (t : QTimer), QTimerWF t →
        QTimerWF (VarB.startT i now t) ∧ QTimerWF (VarB.pauseT i now t) ∧
        QTimerWF (VarB.adjustT i now delta t) ∧ QTimerWF (VarB.resetT i t) ∧
        QTimerWF (VarB.resetAllT t) ∧ QTimerWF (VarB.goalCheckT now t).1) := by
  refine ⟨?_, ?_, ?_, ?_, ?_⟩
  · intro i
    refine ⟨by simp [TimerWF, VarA.newTimer], by simp [TimerWF, VarC.newTimer],
      by simp [QTimerWF, VarB.newTimer], by simp [QTimerWF, VarB.defaultTimer]⟩
  · intro i target goal
    simp [TimerWF, VarC.defaultTimer]
  · intro i now delta t h
    refine ⟨?_, ?_, ?_, ?_, ?_, ?_⟩
    · unfold VarA.startT
      split_ifs <;> simp_all [TimerWF]
    · unfold VarA.pauseT
      split_ifs <;> simp_all [TimerWF]
    · unfold VarA.adjustT
      split_ifs <;> simp_all [TimerWF]
    · unfold VarA.resetT
      split_ifs <;> simp_all [TimerWF]
    · simp_all [VarA.resetDayT, TimerWF]
    · unfold VarA.tickT
      cases hs : t.startTs <;> simp_all [TimerWF]
      split_ifs <;> simp_all
  · intro i now delta t h
    refine ⟨?_, ?_, ?_, ?_, ?_, ?_⟩
    · unfold VarC.startT
      split_ifs <;> simp_all [TimerWF]
    · unfold VarC.pauseT
      split_ifs <;> simp_all [TimerWF]
    · unfold VarC.adjustT
      cases hs : t.startTs <;> simp_all [TimerWF] <;> split_ifs <;> simp_all
    · unfold VarC.resetT
      split_ifs <;> simp_all [TimerWF]
    · simp_all [VarC.resetDayT, TimerWF]
    · unfold VarC.goalCheckT
      split_ifs <;> simp_all [TimerWF]
  · intro i now delta t h
    refine ⟨?_, ?_, ?_, ?_, ?_, ?_⟩
    · unfold VarB.startT
      split_ifs <;> simp_all [QTimerWF]
    · unfold VarB.pauseT
      split_ifs <;> simp_all [QTimerWF]
    · unfold VarB.adjustT
      split_ifs <;> simp_all [QTimerWF]
    · unfold VarB.resetT
      split_ifs <;> simp_all [QTimerWF]
    · simp_all [VarB.resetAllT, QTimerWF]
    · unfold VarB.goalCheckT
      split_ifs <;> simp_all [QTimerWF]

/-- C10 witness at concrete inputs: the invariant holds for the samples
and is preserved by a `part_000` start and a millisecond-variant pause. -/
theorem C10_invariant_witness :
    TimerWF tPaused10 ∧ TimerWF (VarC.startT 2 20 tPaused10) ∧
    QTimerWF qRun1000 ∧ QTimerWF (VarB.pauseT 3 2000 qRun1000) := by
  refine ⟨by decide, (C10_invariant.2.2.2.1 2 20 0 tPaused10 (by decide)).1,
    by decide, (C10_invariant.2.2.2.2 3 2000 0 qRun1000 (by decide)).2.1⟩
